import Mathlib

/-!
Verification development for the `spacetelescope/wfirst-tools` repository.

The repository consists of a single Jupyter notebook,
`notebooks/WebbPSF-Roman_Tutorial.ipynb`, whose executable cells drive the
external WebbPSF library.  We embed the notebook's executable statements as
a small Python-subset abstract syntax, give them an executable operational
semantics in which the behaviour of the external library calls is modelled
from the specification, and prove the claimed properties of the notebook
against that semantics.
-/

namespace WfirstTools

/-- A Python literal as it appears in the notebook's cells.  A scientific
float literal is kept exactly, as a mantissa together with a power of ten,
so that `1.2e-6` is `.sci 12 (-7)`, of exact rational value
`12 * 10 ^ (-7 : ℤ)`. -/
inductive PyLit where
  | sci (mant : Int) (pow10 : Int)
  | intLit (i : Int)
  | str (s : String)
  | boolean (b : Bool)
  | intPair (a b : Int)
  deriving DecidableEq, Repr

/-- Exact rational value of a numeric literal; `none` for a non-numeric
literal. -/
def PyLit.ratValue : PyLit → Option ℚ
  | .sci m p => some ((m : ℚ) * (10 : ℚ) ^ p)
  | .intLit i => some (i : ℚ)
  | _ => none

/-- Python expressions, restricted to the forms the notebook uses:
literals, variable references, attribute access and calls with positional
and keyword arguments. -/
inductive PyExpr where
  | lit (l : PyLit)
  | var (name : String)
  | attr (obj : PyExpr) (fld : String)
  | call (fn : PyExpr) (args : List PyExpr) (kwargs : List (String × PyExpr))

/-- Python statements, restricted to the forms the notebook uses, plus
`tryExcept` and `seq` so that the absence of exception handling in the
notebook is a fact about its code and not about the syntax type. -/
inductive Stmt where
  | magicLine (s : String)
  | importModule (m : String)
  | importFromAs (m member alia : String)
  | assign (target : String) (value : PyExpr)
  | attrAssign (obj : PyExpr) (fld : String) (value : PyExpr)
  | subscriptAssign (obj : PyExpr) (key : String) (value : PyExpr)
  | exprStmt (e : PyExpr)
  | seq (s1 s2 : Stmt)
  | tryExcept (body handler : Stmt)

/-- The statement `mono_psf = wfi.calc_psf(monochromatic=1.2e-6, display=True)`
of the cell `In [6]` of the notebook. -/
def calcPsfStmt : Stmt :=
  .assign "mono_psf"
    (.call (.attr (.var "wfi") "calc_psf") []
      [("monochromatic", .lit (.sci 12 (-7))), ("display", .lit (.boolean true))])

/-- The statement `webbpsf.jupyter_gui.show_notebook_interface_wfi(wfi)` of
the cell `In [4]` of the notebook. -/
def widgetStmt : Stmt :=
  .exprStmt (.call (.attr (.attr (.var "webbpsf") "jupyter_gui")
      "show_notebook_interface_wfi") [.var "wfi"] [])

/-- The statement `mono_psf.writeto('./mono_psf_1.2um.fits', clobber=True)`
of the cell `In [9]` of the notebook. -/
def writetoStmt : Stmt :=
  .exprStmt (.call (.attr (.var "mono_psf") "writeto")
    [.lit (.str "./mono_psf_1.2um.fits")]
    [("clobber", .lit (.boolean true))])

/-- The executable statements of the notebook's code cells, in cell order:
cells `In [1]` through `In [9]` of `WebbPSF-Roman_Tutorial.ipynb`. -/
def notebookStmts : List Stmt := [
  -- In [1]
  .magicLine "matplotlib inline",
  .importModule "matplotlib",
  .subscriptAssign (.attr (.var "matplotlib") "rcParams") "figure.figsize"
    (.lit (.intPair 16 6)),
  .subscriptAssign (.attr (.var "matplotlib") "rcParams") "image.interpolation"
    (.lit (.str "nearest")),
  .importFromAs "matplotlib" "pyplot" "plt",
  .importModule "webbpsf",
  .importModule "webbpsf.roman",
  -- In [2]
  .exprStmt (.call (.attr (.var "webbpsf") "setup_logging") [] []),
  -- In [3]
  .assign "wfi" (.call (.attr (.attr (.var "webbpsf") "roman") "WFI") [] []),
  -- In [4]
  widgetStmt,
  -- In [6]
  calcPsfStmt,
  -- In [7]
  .exprStmt (.call (.attr (.var "mono_psf") "info") [] []),
  -- In [8]
  .exprStmt (.call (.attr (.var "webbpsf") "display_psf") [.var "mono_psf"]
    [("ext", .lit (.str "DET_SAMP"))]),
  -- In [9]
  .exprStmt (.call (.attr (.var "plt") "figure") []
    [("figsize", .lit (.intPair 8 6))]),
  .exprStmt (.call (.attr (.var "webbpsf") "display_profiles")
    [.var "mono_psf"] []),
  -- In [10]
  writetoStmt ]

/-! ### The modelled external library

The notebook's own code is the statement list above; everything it calls
lives in the external WebbPSF/astropy stack, which is not part of this
repository.  The definitions below model that library from the
specification's words. -/

/-- A two-dimensional image plane, kept as its dimensions in pixels. -/
structure FitsImage where
  rows : Nat
  cols : Nat
  deriving DecidableEq, Repr

/-- Modelled from the spec: one named extension of "a FITS-structured image
result containing named extensions (oversampled plane, detector-binned
plane)". -/
structure HDU where
  name : String
  image : FitsImage
  deriving DecidableEq, Repr

/-- Modelled from the spec: the "multi-extension image" FITS HDU list the
library returns and writes. -/
structure HDUList where
  hdus : List HDU
  deriving DecidableEq, Repr

/-- The extension of the given name, if any. -/
def HDUList.findExt (h : HDUList) (name : String) : Option HDU :=
  h.hdus.find? (fun u => u.name == name)

/-- Modelled from the spec: the "instrument configuration object" owned by
the library.  `fovPixels` is the detector-sampled field of view in pixels
(a library-internal quantity our theorems quantify over), and `overrides`
records any attribute assignments made to the object after construction,
newest first; a freshly constructed instrument has none. -/
structure WFI where
  fovPixels : Nat
  overrides : List (String × PyLit)
  deriving DecidableEq, Repr

/-- A freshly constructed `webbpsf.roman.WFI()` instance with the given
library-internal field of view. -/
def WFI.new (fov : Nat) : WFI := { fovPixels := fov, overrides := [] }

/-- Modelled from the spec: `calc_psf` returns a FITS HDU list with "one
holding an oversampled PSF image and one holding a detector-pixel-binned
image", named `OVERSAMP` and `DET_SAMP`, where "the default oversampling
factor is 4": when the caller does not pass an `oversample` argument the
oversampled plane has 4 times the detector plane's dimension on each
axis. -/
def calcPsfModel (w : WFI) (oversampleArg : Option Nat) : HDUList :=
  let os := oversampleArg.getD 4
  let n := w.fovPixels
  { hdus := [ { name := "OVERSAMP", image := { rows := n * os, cols := n * os } },
              { name := "DET_SAMP", image := { rows := n, cols := n } } ] }

/-! ### Runtime values, state and errors -/

/-- Runtime values of the interpreter: imported modules, the instrument
object, the FITS HDU list returned by `calc_psf`, Python `None`, and
literal values. -/
inductive RVal where
  | module (name : String)
  | instrument (w : WFI)
  | hdulist (h : HDUList)
  | pyNone
  | ofLit (l : PyLit)
  deriving DecidableEq, Repr

/-- Python exceptions the model distinguishes.  `libError` stands for an
arbitrary exception raised inside an external library call (injected by the
failure oracle). -/
inductive PyErr where
  | nameError (n : String)
  | typeError (msg : String)
  | libError (code : Nat)
  | fileExists (path : String)
  | extNotFound (name : String)
  deriving DecidableEq, Repr

/-- State of a notebook run: the interactive session's bindings (newest
first), the files on disk (path and FITS content, newest write first),
the ordered trace of imports and external library calls performed, and a
counter of library calls made (consumed by the failure oracle). -/
structure NBState where
  env : List (String × RVal)
  fs : List (String × HDUList)
  trace : List String
  calls : Nat
  deriving DecidableEq, Repr

/-- Value bound to a name, if any (the most recent binding wins). -/
def lookupEnv (n : String) : List (String × RVal) → Option RVal
  | [] => none
  | (k, v) :: rest => if k = n then some v else lookupEnv n rest

/-- Content of the file at a path, if any (the most recent write wins). -/
def lookupFile (p : String) : List (String × HDUList) → Option HDUList
  | [] => none
  | (k, v) :: rest => if k = p then some v else lookupFile p rest

/-- Write (or overwrite) the file at a path. -/
def setFile (p : String) (h : HDUList) (fs : List (String × HDUList)) :
    List (String × HDUList) :=
  (p, h) :: fs.filter (fun e => e.1 ≠ p)

/-- A failure oracle: for each library-call index, whether that call raises
an exception inside the external library, and which. -/
def Orc : Type := Nat → Option PyErr

/-- The oracle of a run in which no library call fails. -/
def noFail : Orc := fun _ => none

/-- Keyword-argument lookup among evaluated keyword arguments. -/
def getKw (name : String) : List (String × RVal) → Option RVal
  | [] => none
  | (k, v) :: rest => if k = name then some v else getKw name rest

/-- A keyword argument read as a natural number, if present and numeric. -/
def kwNat (kws : List (String × RVal)) (name : String) : Option Nat :=
  match getKw name kws with
  | some (.ofLit (.intLit i)) => some i.toNat
  | _ => none

/-- A keyword argument read as a Boolean, defaulting when absent. -/
def kwBool (kws : List (String × RVal)) (name : String) (dflt : Bool) : Bool :=
  match getKw name kws with
  | some (.ofLit (.boolean b)) => b
  | _ => dflt

/-- Modelled from the spec: the library's save routine ("Persist the result
to a file in a standard image format") writes the HDU list to the named
path.  Per the astropy convention the notebook's final cell relies on, a
call with `clobber=True` overwrites an existing file, while without it a
pre-existing file at the path is an error. -/
def writetoModel (h : HDUList) (path : String) (clobber : Bool)
    (fs : List (String × HDUList)) : Except PyErr (List (String × HDUList)) :=
  if !clobber && (lookupFile path fs).isSome then .error (.fileExists path)
  else .ok (setFile path h fs)

/-! ### Operational semantics of the notebook

Statements execute one after the other in cell order; an uncaught
exception aborts the run and leaves the remaining statements unexecuted.
Every external library call first consults the failure oracle, so a run
in which a library call raises is representable. -/

/-- Evaluate an argument expression (the notebook only ever passes
literals, variables and dotted module paths as arguments). -/
def evalAtom (σ : NBState) : PyExpr → Except PyErr RVal
  | .lit l => .ok (.ofLit l)
  | .var n =>
      match lookupEnv n σ.env with
      | some v => .ok v
      | none => .error (.nameError n)
  | .attr obj fld => do
      let v ← evalAtom σ obj
      match v with
      | .module m => .ok (.module (m ++ "." ++ fld))
      | _ => .error (.typeError fld)
  | .call _ _ _ => .error (.typeError "nested call")

/-- Evaluate a list of positional argument expressions. -/
def evalAtoms (σ : NBState) : List PyExpr → Except PyErr (List RVal)
  | [] => .ok []
  | e :: rest => do
      let v ← evalAtom σ e
      let vs ← evalAtoms σ rest
      .ok (v :: vs)

/-- Evaluate the keyword arguments of a call. -/
def evalKwAtoms (σ : NBState) : List (String × PyExpr) →
    Except PyErr (List (String × RVal))
  | [] => .ok []
  | (k, e) :: rest => do
      let v ← evalAtom σ e
      let vs ← evalKwAtoms σ rest
      .ok ((k, v) :: vs)

/-- Consult the failure oracle before an external library call: either the
call raises inside the library, or the call proceeds and the call counter
advances. -/
def consult (orc : Orc) (σ : NBState) : Except PyErr NBState :=
  match orc σ.calls with
  | some e => .error e
  | none => .ok { σ with calls := σ.calls + 1 }

/-- Record an external effect in the run's trace. -/
def pushTrace (σ : NBState) (s : String) : NBState :=
  { σ with trace := σ.trace ++ [s] }

/-- Dispatch of an external library call, after the failure oracle let it
proceed.  Module-level functions and methods of the instrument and of the
HDU list are modelled from the spec; anything else is a `TypeError`. -/
def applyCall (fov : Nat) (σ : NBState) (recv : RVal) (meth : String)
    (argVals : List RVal) (kwVals : List (String × RVal)) :
    Except PyErr (RVal × NBState) :=
  match recv with
  | .module "webbpsf" =>
      match meth, argVals with
      | "setup_logging", [] => .ok (.pyNone, pushTrace σ "webbpsf.setup_logging")
      | "display_psf", [.hdulist h] =>
          -- Modelled from the spec: "Render the result using
          -- library-provided display and profile-analysis functions";
          -- displaying reads the named extension and mutates nothing.
          match getKw "ext" kwVals with
          | some (.ofLit (.str e)) =>
              match h.findExt e with
              | some _ => .ok (.pyNone, pushTrace σ "webbpsf.display_psf")
              | none => .error (.extNotFound e)
          | _ => .error (.typeError "display_psf")
      | "display_profiles", [.hdulist _] =>
          .ok (.pyNone, pushTrace σ "webbpsf.display_profiles")
      | _, _ => .error (.typeError meth)
  | .module "webbpsf.roman" =>
      match meth, argVals with
      | "WFI", [] => .ok (.instrument (WFI.new fov), pushTrace σ "webbpsf.roman.WFI")
      | _, _ => .error (.typeError meth)
  | .module "webbpsf.jupyter_gui" =>
      match meth, argVals with
      | "show_notebook_interface_wfi", [.instrument _] =>
          -- Modelled from the spec: "Optionally display an interactive
          -- configuration widget (owned by the library)"; with no
          -- interactive input the widget only displays, so the session
          -- bindings and the disk are untouched.
          .ok (.pyNone, pushTrace σ "webbpsf.jupyter_gui.show_notebook_interface_wfi")
      | _, _ => .error (.typeError meth)
  | .module "matplotlib.pyplot" =>
      match meth with
      | "figure" => .ok (.pyNone, pushTrace σ "matplotlib.pyplot.figure")
      | _ => .error (.typeError meth)
  | .instrument w =>
      match meth with
      | "calc_psf" =>
          .ok (.hdulist (calcPsfModel w (kwNat kwVals "oversample")),
               pushTrace σ "WFI.calc_psf")
      | _ => .error (.typeError meth)
  | .hdulist h =>
      match meth, argVals with
      | "info", [] => .ok (.pyNone, pushTrace σ "HDUList.info")
      | "writeto", [.ofLit (.str path)] => do
          let fs ← writetoModel h path (kwBool kwVals "clobber" false) σ.fs
          .ok (.pyNone, pushTrace { σ with fs := fs } ("HDUList.writeto " ++ path))
      | _, _ => .error (.typeError meth)
  | _ => .error (.typeError meth)

/-- Evaluate an expression at statement level, performing its external
call if it is one. -/
def evalExprS (fov : Nat) (orc : Orc) (σ : NBState) :
    PyExpr → Except PyErr (RVal × NBState)
  | .call (.attr recvExpr meth) args kwargs => do
      let recv ← evalAtom σ recvExpr
      let argVals ← evalAtoms σ args
      let kwVals ← evalKwAtoms σ kwargs
      let σ' ← consult orc σ
      applyCall fov σ' recv meth argVals kwVals
  | .call _ _ _ => .error (.typeError "call")
  | e => do
      let v ← evalAtom σ e
      .ok (v, σ)

/-- Characters of a dotted path before the first dot. -/
def topNameAux : List Char → List Char
  | [] => []
  | c :: rest => if c = '.' then [] else c :: topNameAux rest

/-- The top-level name an `import` statement binds (Python binds the root
package name). -/
def topName (m : String) : String := ⟨topNameAux m.data⟩

/-- Execute one statement. -/
def execStmt (fov : Nat) (orc : Orc) : Stmt → NBState → Except PyErr NBState
  | .magicLine _, σ => .ok σ
  | .importModule m, σ =>
      .ok (pushTrace { σ with env := (topName m, .module (topName m)) :: σ.env }
            ("import " ++ m))
  | .importFromAs m mem al, σ =>
      .ok (pushTrace { σ with env := (al, .module (m ++ "." ++ mem)) :: σ.env }
            ("from " ++ m ++ " import " ++ mem))
  | .assign x e, σ => do
      let (v, σ') ← evalExprS fov orc σ e
      .ok { σ' with env := (x, v) :: σ'.env }
  | .attrAssign obj fld value, σ => do
      let ov ← evalAtom σ obj
      let v ← evalAtom σ value
      match obj, ov, v with
      | .var n, .instrument w, .ofLit l =>
          .ok { σ with env :=
            (n, .instrument { w with overrides := (fld, l) :: w.overrides }) :: σ.env }
      | _, _, _ => .ok σ
  | .subscriptAssign obj _ value, σ => do
      let _ ← evalAtom σ obj
      let _ ← evalAtom σ value
      .ok σ
  | .exprStmt e, σ => do
      let (_, σ') ← evalExprS fov orc σ e
      .ok σ'
  | .seq a b, σ => do
      let σ' ← execStmt fov orc a σ
      execStmt fov orc b σ'
  | .tryExcept body handler, σ =>
      match execStmt fov orc body σ with
      | .ok σ' => .ok σ'
      | .error _ => execStmt fov orc handler σ

/-- Execute a list of statements in order; an uncaught exception aborts
the run and the remaining statements do not execute. -/
def runStmts (fov : Nat) (orc : Orc) : List Stmt → NBState → Except PyErr NBState
  | [], σ => .ok σ
  | s :: rest, σ =>
      match execStmt fov orc s σ with
      | .ok σ' => runStmts fov orc rest σ'
      | .error e => .error e

/-- The state of a fresh interactive session over a disk holding the given
files. -/
def initState (fs₀ : List (String × HDUList)) : NBState :=
  { env := [], fs := fs₀, trace := [], calls := 0 }

/-- Run the whole notebook from a fresh session over the given disk. -/
def runNotebook (fov : Nat) (orc : Orc) (fs₀ : List (String × HDUList)) :
    Except PyErr NBState :=
  runStmts fov orc notebookStmts (initState fs₀)

/-- The path of the one file the notebook writes. -/
def psfPath : String := "./mono_psf_1.2um.fits"

/-! ### The state a full successful run produces -/

/-- The HDU list `calc_psf` returns for the notebook's call, which passes
no `oversample` argument. -/
def monoPsfResult (fov : Nat) : HDUList := calcPsfModel (WFI.new fov) none

/-- The ordered trace of imports and external library calls a successful
run of the notebook performs. -/
def notebookTrace : List String :=
  ["import matplotlib", "from matplotlib import pyplot", "import webbpsf",
   "import webbpsf.roman", "webbpsf.setup_logging", "webbpsf.roman.WFI",
   "webbpsf.jupyter_gui.show_notebook_interface_wfi", "WFI.calc_psf",
   "HDUList.info", "webbpsf.display_psf", "matplotlib.pyplot.figure",
   "webbpsf.display_profiles", "HDUList.writeto ./mono_psf_1.2um.fits"]

/-- The session bindings after a successful run, newest first. -/
def finalEnv (fov : Nat) : List (String × RVal) :=
  [("mono_psf", .hdulist (monoPsfResult fov)),
   ("wfi", .instrument (WFI.new fov)),
   ("webbpsf", .module "webbpsf"),
   ("webbpsf", .module "webbpsf"),
   ("plt", .module "matplotlib.pyplot"),
   ("matplotlib", .module "matplotlib")]

/-- The full state after a successful run of the notebook over an initial
disk `fs₀`. -/
def finalState (fov : Nat) (fs₀ : List (String × HDUList)) : NBState :=
  { env := finalEnv fov,
    fs := setFile psfPath (monoPsfResult fov) fs₀,
    trace := notebookTrace,
    calls := 9 }

/-! ### Syntactic predicates on the notebook's statements -/

/-- Whether a statement contains any `try`/`except` exception handling. -/
def Stmt.hasTry : Stmt → Bool
  | .seq a b => a.hasTry || b.hasTry
  | .tryExcept _ _ => true
  | _ => false

/-- The variable at the base of an attribute or subscript target, if any:
`wfi.detector` and `wfi.options` both have base variable `wfi`. -/
def PyExpr.baseVar : PyExpr → Option String
  | .var n => some n
  | .attr obj _ => obj.baseVar
  | _ => none

/-- Whether a statement rebinds the variable `x` or assigns to an
attribute or subscript of the object it names. -/
def Stmt.mutatesVar (x : String) : Stmt → Bool
  | .assign t _ => t == x
  | .attrAssign obj _ _ => obj.baseVar == some x
  | .subscriptAssign obj _ _ => obj.baseVar == some x
  | .seq a b => a.mutatesVar x || b.mutatesVar x
  | .tryExcept b h => b.mutatesVar x || h.mutatesVar x
  | _ => false

/-- File paths a statement-level expression writes: a `writeto` call on
any receiver, with its first positional argument the path.  The notebook's
calls all occur at statement level (the semantics rejects nested calls),
so scanning the top-level call of each statement is exhaustive here. -/
def PyExpr.writePaths : PyExpr → List String
  | .call (.attr _ m) args _ =>
      if m = "writeto" then
        match args with
        | .lit (.str p) :: _ => [p]
        | _ => []
      else []
  | _ => []

/-- File paths a statement writes. -/
def Stmt.fileWrites : Stmt → List String
  | .assign _ e => e.writePaths
  | .attrAssign _ _ e => e.writePaths
  | .subscriptAssign _ _ e => e.writePaths
  | .exprStmt e => e.writePaths
  | .seq a b => a.fileWrites ++ b.fileWrites
  | .tryExcept b h => b.fileWrites ++ h.fileWrites
  | _ => []

/-- The keyword arguments of the call a statement performs, if any. -/
def Stmt.callKwargs : Stmt → List (String × PyExpr)
  | .assign _ (.call _ _ k) => k
  | .exprStmt (.call _ _ k) => k
  | _ => []

/-- Keyword lookup among syntactic keyword arguments. -/
def lookupKw (name : String) : List (String × PyExpr) → Option PyExpr
  | [] => none
  | (k, e) :: rest => if k = name then some e else lookupKw name rest

/-! ### Definitions supporting the individual claims -/

/-- The eight steps claim C4 lists, as trace entries, in the claimed
order. -/
def claimedSteps : List String :=
  ["import webbpsf", "webbpsf.roman.WFI",
   "webbpsf.jupyter_gui.show_notebook_interface_wfi", "WFI.calc_psf",
   "HDUList.info", "webbpsf.display_psf", "webbpsf.display_profiles",
   "HDUList.writeto ./mono_psf_1.2um.fits"]

/-- The notebook with the widget cell (statement 9, the only statement of
cell `In [4]`) skipped and everything else unchanged. -/
def notebookStmtsNoWidget : List Stmt :=
  notebookStmts.take 9 ++ notebookStmts.drop 10

/-- The trace of a run that skips the widget cell. -/
def notebookTraceNoWidget : List String :=
  ["import matplotlib", "from matplotlib import pyplot", "import webbpsf",
   "import webbpsf.roman", "webbpsf.setup_logging", "webbpsf.roman.WFI",
   "WFI.calc_psf", "HDUList.info", "webbpsf.display_psf",
   "matplotlib.pyplot.figure", "webbpsf.display_profiles",
   "HDUList.writeto ./mono_psf_1.2um.fits"]

/-- The full state after a successful run that skips the widget cell. -/
def finalStateNoWidget (fov : Nat) (fs₀ : List (String × HDUList)) : NBState :=
  { env := finalEnv fov,
    fs := setFile psfPath (monoPsfResult fov) fs₀,
    trace := notebookTraceNoWidget,
    calls := 8 }

/-- An oracle under which the fourth library call of the run — the
`calc_psf` call, after `setup_logging`, the `WFI` construction and the
widget — raises inside the library. -/
def failAtCalc : Orc := fun k => if k = 3 then some (.libError 3) else none

/-- A sample FITS file content used to exercise the frame and overwrite
theorems at a concrete pre-existing file. -/
def staleFile : HDUList := { hdus := [{ name := "PRIMARY", image := { rows := 1, cols := 1 } }] }

/-! ### General lemmas about the semantics -/

/-- A failure-free run of the notebook computes exactly `finalState`. -/
theorem runNotebook_noFail (fov : Nat) (fs₀ : List (String × HDUList)) :
    runNotebook fov noFail fs₀ = .ok (finalState fov fs₀) := rfl

/-- A failure-free run that skips the widget cell computes exactly
`finalStateNoWidget`. -/
theorem runNoWidget_noFail (fov : Nat) (fs₀ : List (String × HDUList)) :
    runStmts fov noFail notebookStmtsNoWidget (initState fs₀) =
      .ok (finalStateNoWidget fov fs₀) := rfl

/-- Running a concatenation runs the first part, and the second only if
the first succeeded; an error in the first part is the whole run's
result. -/
theorem runStmts_append (fov : Nat) (orc : Orc) (l₁ l₂ : List Stmt)
    (σ : NBState) :
    runStmts fov orc (l₁ ++ l₂) σ =
      match runStmts fov orc l₁ σ with
      | .ok σ' => runStmts fov orc l₂ σ'
      | .error e => .error e := by
  induction l₁ generalizing σ with
  | nil => rfl
  | cons s rest ih =>
      simp only [List.cons_append, runStmts]
      cases execStmt fov orc s σ with
      | ok σ' => exact ih σ'
      | error e => rfl

/-- Dropping the entries at a different path does not change a path's
lookup. -/
theorem lookupFile_filter (p q : String) (hpq : p ≠ q) :
    ∀ fs : List (String × HDUList),
      lookupFile p (fs.filter (fun e => e.1 ≠ q)) = lookupFile p fs
  | [] => rfl
  | (k, v) :: rest => by
      have ih := lookupFile_filter p q hpq rest
      rw [List.filter_cons]
      by_cases hk : k = q
      · rw [if_neg (by simp [hk]), ih]
        simp only [lookupFile]
        rw [if_neg (fun hh => hpq (hh.symm.trans hk))]
      · rw [if_pos (by simp [hk])]
        simp only [lookupFile]
        rw [ih]

/-- Writing one file leaves every other path's content unchanged. -/
theorem lookupFile_setFile_ne (p q : String) (hl : HDUList)
    (fs : List (String × HDUList)) (hpq : p ≠ q) :
    lookupFile p (setFile q hl fs) = lookupFile p fs := by
  have hq : ¬q = p := fun hh => hpq hh.symm
  show lookupFile p ((q, hl) :: fs.filter (fun e => e.1 ≠ q)) = lookupFile p fs
  simp only [lookupFile]
  rw [if_neg hq]
  exact lookupFile_filter p q hpq fs

/-! ### The claims -/

/-- C1: For every successful run of the notebook, the file written at
`./mono_psf_1.2um.fits` by `mono_psf.writeto` is a multi-extension FITS
file containing at least two named extensions: one named `OVERSAMP`
holding the oversampled PSF image and one named `DET_SAMP` holding the
detector-pixel-binned image. -/
theorem claim_C1 (fov : Nat) (fs₀ : List (String × HDUList)) :
    ∃ σ hl over det,
      runNotebook fov noFail fs₀ = .ok σ ∧
      lookupFile psfPath σ.fs = some hl ∧
      2 ≤ hl.hdus.length ∧
      hl.findExt "OVERSAMP" = some over ∧
      hl.findExt "DET_SAMP" = some det ∧
      over.image = { rows := fov * 4, cols := fov * 4 } ∧
      det.image = { rows := fov, cols := fov } := by
  refine ⟨finalState fov fs₀, monoPsfResult fov,
    ⟨"OVERSAMP", { rows := fov * 4, cols := fov * 4 }⟩,
    ⟨"DET_SAMP", { rows := fov, cols := fov }⟩,
    runNotebook_noFail fov fs₀, ?_, Nat.le_refl 2, rfl, rfl, rfl, rfl⟩
  show lookupFile psfPath (setFile psfPath (monoPsfResult fov) fs₀) = _
  simp [setFile, lookupFile]

/-- C2: In the HDU list returned by `wfi.calc_psf` when no `oversample`
argument is given, the default oversampling factor is 4: each axis
dimension of the `OVERSAMP` extension's image equals exactly 4 times the
corresponding axis dimension of the `DET_SAMP` extension's image. -/
theorem claim_C2 (fov : Nat) (fs₀ : List (String × HDUList)) :
    lookupKw "oversample" calcPsfStmt.callKwargs = none ∧
    ∃ σ hl over det,
      runNotebook fov noFail fs₀ = .ok σ ∧
      lookupEnv "mono_psf" σ.env = some (.hdulist hl) ∧
      hl.findExt "OVERSAMP" = some over ∧
      hl.findExt "DET_SAMP" = some det ∧
      over.image.rows = 4 * det.image.rows ∧
      over.image.cols = 4 * det.image.cols :=
  ⟨rfl, finalState fov fs₀, monoPsfResult fov,
    ⟨"OVERSAMP", { rows := fov * 4, cols := fov * 4 }⟩,
    ⟨"DET_SAMP", { rows := fov, cols := fov }⟩,
    runNotebook_noFail fov fs₀, rfl, rfl, rfl,
    Nat.mul_comm fov 4, Nat.mul_comm fov 4⟩

/-- C3: The notebook's scripted PSF calculation calls `wfi.calc_psf`
requesting a monochromatic calculation at the wavelength `1.2e-6` m with
`display=True`, and binds the returned FITS HDU list to the variable
`mono_psf`. -/
theorem claim_C3 (fov : Nat) (fs₀ : List (String × HDUList)) :
    notebookStmts.get? 10 = some calcPsfStmt ∧
    calcPsfStmt = .assign "mono_psf"
      (.call (.attr (.var "wfi") "calc_psf") []
        [("monochromatic", .lit (.sci 12 (-7))), ("display", .lit (.boolean true))]) ∧
    (PyLit.sci 12 (-7)).ratValue = some ((1.2e-6 : ℚ)) ∧
    lookupKw "display" calcPsfStmt.callKwargs = some (.lit (.boolean true)) ∧
    ∃ σ, runNotebook fov noFail fs₀ = .ok σ ∧
      lookupEnv "mono_psf" σ.env = some (.hdulist (monoPsfResult fov)) :=
  ⟨rfl, rfl, by norm_num [PyLit.ratValue], rfl,
    finalState fov fs₀, runNotebook_noFail fov fs₀, rfl⟩

/-- C4: The notebook executes its steps in a fixed linear order, each
exactly once: import the library, construct the WFI instance, show the
notebook GUI widget, `calc_psf`, `info`, `display_psf`,
`display_profiles`, and finally `writeto`; the run's trace lists them in
exactly that order and none twice (sequential execution is built into the
statement-list semantics). -/
theorem claim_C4 (fov : Nat) (fs₀ : List (String × HDUList)) :
    (runNotebook fov noFail fs₀).map NBState.trace = .ok notebookTrace ∧
    claimedSteps.Sublist notebookTrace ∧
    (∀ s ∈ claimedSteps, notebookTrace.count s = 1) := by
  refine ⟨?_, by decide, by decide⟩
  rw [runNotebook_noFail]
  rfl

/-- C4 witness: the trace fact and a count instantiated at the `calc_psf`
step. -/
theorem claim_C4_witness :
    (runNotebook 45 noFail []).map NBState.trace = .ok notebookTrace ∧
    notebookTrace.count "WFI.calc_psf" = 1 := by
  obtain ⟨h1, -, h3⟩ := claim_C4 45 []
  exact ⟨h1, h3 "WFI.calc_psf" (by decide)⟩

/-- C5: The notebook contains no exception handling: no statement is (or
contains) a `try`/`except`, and if an exception is raised at any point of
the sequence it is the whole run's outcome, unchanged, with the remaining
statements unexecuted. -/
theorem claim_C5 :
    notebookStmts.all (fun s => !s.hasTry) = true ∧
    ∀ (fov : Nat) (orc : Orc) (pre post : List Stmt) (σ : NBState) (e : PyErr),
      notebookStmts = pre ++ post →
      runStmts fov orc pre σ = .error e →
      runStmts fov orc notebookStmts σ = .error e := by
  refine ⟨rfl, ?_⟩
  intro fov orc pre post σ e hsplit herr
  rw [hsplit, runStmts_append, herr]

/-- C5 witness: under an oracle that makes the `calc_psf` library call
raise, the whole notebook run is that very error (so the statements after
`calc_psf` never execute). -/
theorem claim_C5_witness :
    runStmts 45 failAtCalc notebookStmts (initState []) = .error (.libError 3) :=
  (claim_C5).2 45 failAtCalc (notebookStmts.take 11) (notebookStmts.drop 11)
    (initState []) (.libError 3) (List.take_append_drop 11 notebookStmts).symm rfl

/-- C6: After `wfi = webbpsf.roman.WFI()` is constructed (statement 8), no
later statement rebinds `wfi` or assigns to an attribute or subscript of
it, and at the end of a run the instrument is bound to exactly the value
constructed, with no attribute overrides. -/
theorem claim_C6 (fov : Nat) (fs₀ : List (String × HDUList)) :
    notebookStmts.get? 8 = some (.assign "wfi"
      (.call (.attr (.attr (.var "webbpsf") "roman") "WFI") [] [])) ∧
    (notebookStmts.drop 9).all (fun s => !(s.mutatesVar "wfi")) = true ∧
    ∃ σ, runNotebook fov noFail fs₀ = .ok σ ∧
      lookupEnv "wfi" σ.env = some (.instrument (WFI.new fov)) ∧
      (WFI.new fov).overrides = [] :=
  ⟨rfl, rfl, finalState fov fs₀, runNotebook_noFail fov fs₀, rfl, rfl⟩

/-- C7: The widget step is optional: a run of the notebook and a run that
skips only the widget cell (with no interactive widget input, as modelled)
produce the same `mono_psf` binding and the same files on disk. -/
theorem claim_C7 (fov : Nat) (fs₀ : List (String × HDUList)) :
    notebookStmts = notebookStmts.take 9 ++ widgetStmt :: notebookStmts.drop 10 ∧
    ∃ σ₁ σ₂,
      runStmts fov noFail notebookStmts (initState fs₀) = .ok σ₁ ∧
      runStmts fov noFail notebookStmtsNoWidget (initState fs₀) = .ok σ₂ ∧
      lookupEnv "mono_psf" σ₁.env = lookupEnv "mono_psf" σ₂.env ∧
      σ₁.fs = σ₂.fs :=
  ⟨rfl, finalState fov fs₀, finalStateNoWidget fov fs₀,
    runNotebook_noFail fov fs₀, runNoWidget_noFail fov fs₀, rfl, rfl⟩

/-- C8: The only file the notebook writes is `./mono_psf_1.2um.fits`: the
statement-level scan finds exactly that one write, and a run changes no
other path on disk. -/
theorem claim_C8 (fov : Nat) (fs₀ : List (String × HDUList)) :
    (notebookStmts.map Stmt.fileWrites).flatten = [psfPath] ∧
    ∃ σ, runNotebook fov noFail fs₀ = .ok σ ∧
      lookupFile psfPath σ.fs = some (monoPsfResult fov) ∧
      ∀ p, p ≠ psfPath → lookupFile p σ.fs = lookupFile p fs₀ := by
  refine ⟨rfl, finalState fov fs₀, runNotebook_noFail fov fs₀, ?_, ?_⟩
  · show lookupFile psfPath (setFile psfPath (monoPsfResult fov) fs₀) = _
    simp [setFile, lookupFile]
  · intro p hp
    exact lookupFile_setFile_ne p psfPath (monoPsfResult fov) fs₀ hp

/-- C8 witness: a pre-existing file at another path is untouched by the
run. -/
theorem claim_C8_witness :
    ∃ σ, runNotebook 45 noFail [("./other.fits", staleFile)] = .ok σ ∧
      lookupFile "./other.fits" σ.fs =
        lookupFile "./other.fits" [("./other.fits", staleFile)] := by
  obtain ⟨-, σ, hrun, -, hframe⟩ := claim_C8 45 [("./other.fits", staleFile)]
  exact ⟨σ, hrun, hframe "./other.fits" (by decide)⟩

/-- C9: `mono_psf.writeto` is called with `clobber=True`, so a run
overwrites any file already at `./mono_psf_1.2um.fits` and succeeds (the
run succeeds for every initial disk); without `clobber=True` a
pre-existing file would instead be a file-already-exists error. -/
theorem claim_C9 (fov : Nat) (fs₀ : List (String × HDUList)) :
    lookupKw "clobber" writetoStmt.callKwargs = some (.lit (.boolean true)) ∧
    (∃ σ, runNotebook fov noFail fs₀ = .ok σ ∧
      lookupFile psfPath σ.fs = some (monoPsfResult fov)) ∧
    (∀ (hl : HDUList) (fs : List (String × HDUList)),
        (lookupFile psfPath fs).isSome = true →
        writetoModel hl psfPath false fs = .error (.fileExists psfPath)) ∧
    (∀ (hl : HDUList) (fs : List (String × HDUList)),
        writetoModel hl psfPath true fs = .ok (setFile psfPath hl fs)) := by
  refine ⟨rfl, ⟨finalState fov fs₀, runNotebook_noFail fov fs₀, ?_⟩, ?_,
    fun hl fs => rfl⟩
  · show lookupFile psfPath (setFile psfPath (monoPsfResult fov) fs₀) = _
    simp [setFile, lookupFile]
  · intro hl fs hs
    simp [writetoModel, hs]

/-- C9 witness: with `clobber=False`, writing over an existing file at the
path is a file-already-exists error; the notebook's run over a disk that
already holds the file succeeds. -/
theorem claim_C9_witness :
    writetoModel staleFile psfPath false [(psfPath, staleFile)] =
      .error (.fileExists psfPath) ∧
    (∃ σ, runNotebook 45 noFail [(psfPath, staleFile)] = .ok σ ∧
      lookupFile psfPath σ.fs = some (monoPsfResult 45)) := by
  obtain ⟨-, hover, herr, -⟩ := claim_C9 45 [(psfPath, staleFile)]
  exact ⟨herr staleFile [(psfPath, staleFile)] rfl, hover⟩

/-- C10: Between `calc_psf` (statement 10) and `writeto` (statement 15)
no statement rebinds or mutates `mono_psf`; the intermediate `info`,
`display_psf` and `display_profiles` calls are read-only with respect to
it, so the data written to the file equals the data returned by
`calc_psf`. -/
theorem claim_C10 (fov : Nat) (fs₀ : List (String × HDUList)) :
    notebookStmts.get? 10 = some calcPsfStmt ∧
    notebookStmts.get? 15 = some writetoStmt ∧
    (notebookStmts.drop 11).all (fun s => !(s.mutatesVar "mono_psf")) = true ∧
    ∃ σ, runNotebook fov noFail fs₀ = .ok σ ∧
      lookupEnv "mono_psf" σ.env = some (.hdulist (monoPsfResult fov)) ∧
      lookupFile psfPath σ.fs = some (monoPsfResult fov) := by
  refine ⟨rfl, rfl, rfl, finalState fov fs₀, runNotebook_noFail fov fs₀, rfl, ?_⟩
  show lookupFile psfPath (setFile psfPath (monoPsfResult fov) fs₀) = _
  simp [setFile, lookupFile]

end WfirstTools
